import Mathlib

/-!
Shallow embedding of the drink-water reminder application.

The canonical source is `src/Reminder.py` (class `ReminderApp`); the window
check of the older variant `src/asd.py` (`ReminderApp.remind_user`) is
embedded in the `Reminder.Asd` namespace.  GUI side effects are modelled as
fields of an explicit application state: widget text becomes `String`
fields, the Tk `after` callback token becomes an `Option Unit`, opening a
`NotificationWindow` appends a `Notification` record to a list, and the
pystray icon becomes an `Option Unit`.  Wall-clock instants are seconds of
the local day (`Nat`); the embedded operations receive the clock value
`now` exactly where the source calls `datetime.datetime.now()`.
-/

deriving instance DecidableEq for Except

namespace Reminder

/-- Characters treated as whitespace by Python `str.strip()` and `int()`
(space, tab, LF, VT, FF, CR). -/
def pyIsSpace (c : Char) : Bool :=
  [32, 9, 10, 11, 12, 13].contains c.toNat

/-- Strip leading and trailing Python whitespace from a character list. -/
def stripChars (cs : List Char) : List Char :=
  ((cs.dropWhile pyIsSpace).reverse.dropWhile pyIsSpace).reverse

/-- Python `str.strip()`. -/
def pyStrip (s : String) : String := ⟨stripChars s.data⟩

/-- Value of a nonempty all-digit character run, `none` otherwise. -/
def digitsToNat (cs : List Char) : Option Nat :=
  if cs = [] then none
  else if cs.all Char.isDigit then
    some (cs.foldl (fun a c => a * 10 + (c.toNat - 48)) 0)
  else none

/-- Python `int(s)`: strips whitespace, accepts an optional sign followed by
a nonempty digit run, raises `ValueError` (here `none`) otherwise.
(Underscore digit grouping, accepted by Python, is not modelled; no input
in the repository uses it.) -/
def pyInt (s : String) : Option Int :=
  match stripChars s.data with
  | '+' :: ds => (digitsToNat ds).map Int.ofNat
  | '-' :: ds => (digitsToNat ds).map (fun n => -(n : Int))
  | ds => (digitsToNat ds).map Int.ofNat

/-- Time of day at minute resolution, as produced by
`datetime.strptime(s, "%H:%M")`. -/
structure TimeOfDay where
  hour : Nat
  minute : Nat
deriving DecidableEq

/-- Minutes since midnight. -/
def TimeOfDay.toMinutes (t : TimeOfDay) : Nat := t.hour * 60 + t.minute

/-- One numeric field of the strptime format: one or two digits, the
two-digit reading taken exactly when its value is at most `maxv`
(this reproduces the regexes Python compiles for the `H` and `M`
directives). Returns the value and the unconsumed characters. -/
def parseField (maxv : Nat) : List Char → Option (Nat × List Char)
  | [] => none
  | [c] => if c.isDigit then some (c.toNat - 48, []) else none
  | c1 :: c2 :: rest =>
    if c1.isDigit && c2.isDigit &&
        decide ((c1.toNat - 48) * 10 + (c2.toNat - 48) ≤ maxv) then
      some ((c1.toNat - 48) * 10 + (c2.toNat - 48), rest)
    else if c1.isDigit then
      some (c1.toNat - 48, c2 :: rest)
    else none

/-- Python `datetime.strptime(s, "%H:%M")`, reduced to the time of day it
yields: hour field (0..23), a colon, minute field (0..59), end of input;
`none` models the `ValueError` raised on any other shape. -/
def strptimeHM (s : String) : Option TimeOfDay :=
  match parseField 23 s.data with
  | some (h, c :: rest) =>
    if c = ':' then
      match parseField 59 rest with
      | some (m, []) => some ⟨h, m⟩
      | _ => none
    else none
  | _ => none

/-- The window check of `Reminder.py` `validate_inputs` line 531:
`start_time <= now < end_time`, where both bounds are today's date combined
with the parsed times (so the comparison is on seconds of the current day).
Half-open: true at the start instant, false at the end instant. -/
def windowContains (startT endT : TimeOfDay) (now : Nat) : Bool :=
  decide (startT.toMinutes * 60 ≤ now) && decide (now < endT.toMinutes * 60)

/-- The keys carried by the `ValueError`s raised in `validate_inputs`. -/
inductive ValidationError where
  | interval_empty
  | interval_invalid
  | interval_error
  | time_invalid
  | time_error
  | outside_range
deriving DecidableEq

/-- The translation key the source passes to `show_notification` for each
validation failure (`e.args[0]`). -/
def ValidationError.key : ValidationError → String
  | .interval_empty => "interval_empty"
  | .interval_invalid => "interval_invalid"
  | .interval_error => "interval_error"
  | .time_invalid => "time_invalid"
  | .time_error => "time_error"
  | .outside_range => "outside_range"

/-- The English translation table (`ReminderApp.TRANSLATIONS["English"]`).
The embedding fixes the language to the default "English"; no claim
involves language switching, and the 中文 table differs only in the
string values. -/
def english : List (String × String) :=
  [ ("app_name", "Drink Water Reminder"),
    ("interval_label", "Reminder Interval (minutes):"),
    ("start_time_label", "Start Time (HH:MM):"),
    ("end_time_label", "End Time (HH:MM):"),
    ("countdown_label", "Time Remaining: 00:00"),
    ("countdown_label_prefix", "Time Remaining"),
    ("start_button", "Start Reminder"),
    ("stop_button", "Stop Reminder"),
    ("auto_start_label_on", "Application set to auto-start"),
    ("auto_start_label_off", "Application not set to auto-start"),
    ("set_auto_start", "Set Auto-start"),
    ("remove_auto_start", "Remove Auto-start"),
    ("settings_button", "Settings"),
    ("settings_title", "Settings"),
    ("language_label", "Language:"),
    ("save_button", "Save"),
    ("invalid_input", "Invalid Input"),
    ("interval_error", "Interval must be positive"),
    ("interval_invalid", "Interval must be a number"),
    ("interval_empty", "Interval cannot be empty"),
    ("time_error", "End time must be after start time"),
    ("time_invalid", "Time must be in HH:MM format"),
    ("outside_range", "Outside reminder time range!"),
    ("drink_water", "Time to drink water!"),
    ("restore_window", "Restore"),
    ("hide_window", "Hide"),
    ("exit_button", "Exit") ]

/-- `ReminderApp.get_text`: translated text for a key, the key itself when
absent from the table. -/
def get_text (key : String) : String :=
  ((english.find? (fun p => p.1 == key)).map Prod.snd).getD key

/-- Python `f"{n:02d}"` for the values that occur in the countdown label. -/
def pad2 (n : Int) : String :=
  if 0 ≤ n ∧ n < 10 then "0" ++ toString n else toString n

/-- One open `NotificationWindow`: translated title and message, and
whether its close callback is `on_notification_closed` (`true` for the
drink-water prompt, `false` for validation-error popups, whose callback is
`None`). -/
structure Notification where
  title : String
  message : String
  on_close : Bool
deriving DecidableEq

/-- State of the three entry widgets (`set_input_state`). -/
inductive InputState where
  | normal
  | disabled
deriving DecidableEq

/-- The mutable state of a `ReminderApp` instance, plus the observable GUI
state the claims speak about.  `after_id` is `some ()` exactly when a tick
callback is scheduled with Tk `after`; `tray_icon` is `some ()` exactly
when `pystray.Icon` was created; `notifications` lists the currently open
notification windows in order of opening. -/
structure AppState where
  is_running : Bool
  remaining_time : Int
  window_hidden : Bool
  after_id : Option Unit
  tray_icon : Option Unit
  interval_var : String
  start_time_var : String
  end_time_var : String
  input_state : InputState
  start_button_text : String
  countdown_label : String
  notifications : List Notification
deriving DecidableEq

/-- `ReminderApp.validate_inputs` (lines 481-541), reduced to its decision.
The source checks, in order: stripped interval text nonempty, interval
parses as an int, interval positive, both times parse with
`strptime("%H:%M")` (the inner hour/minute range checks at lines 518-521
are subsumed by strptime and unreachable), `end <= start` rejected, and
finally that `now` lies in the half-open window.  The source returns a
bool and shows the error notification itself; here the error is returned
and the caller appends the notification (`surfaceError`). -/
def validate_inputs (iv st et : String) (now : Nat) :
    Except ValidationError Unit :=
  if pyStrip iv = "" then .error .interval_empty
  else
    match pyInt iv with
    | none => .error .interval_invalid
    | some interval =>
      if interval ≤ 0 then .error .interval_error
      else
        match strptimeHM (pyStrip st), strptimeHM (pyStrip et) with
        | some startT, some endT =>
          if endT.toMinutes ≤ startT.toMinutes then .error .time_error
          else if windowContains startT endT now then .ok ()
          else .error .outside_range
        | _, _ => .error .time_invalid

/-- Effect of `show_notification("invalid_input", error_key)` performed by
`validate_inputs` on failure: a `NotificationWindow` with translated title
and message and no close callback. -/
def surfaceError (s : AppState) (e : ValidationError) : AppState :=
  { s with notifications :=
      s.notifications ++ [⟨get_text "invalid_input", get_text e.key, false⟩] }

/-- `ReminderApp.stop_reminder` (lines 575-583): clear the running flag,
reset the button text, re-enable the inputs, reset the countdown label,
and cancel any pending `after` callback. `remaining_time` is not touched. -/
def stop_reminder (s : AppState) : AppState :=
  { s with is_running := false,
           start_button_text := get_text "start_button",
           input_state := InputState.normal,
           countdown_label := get_text "countdown_label",
           after_id := none }

/-- `ReminderApp.update_countdown` (lines 598-609): a no-op unless running;
with positive remaining time, decrement it and render the label; otherwise
clear the running flag and open the drink-water notification (whose close
callback is `on_notification_closed`).  Note that the function consults no
clock and performs no schedule-window check. -/
def update_countdown (s : AppState) : AppState :=
  if s.is_running then
    if 0 < s.remaining_time then
      let r := s.remaining_time - 1
      { s with remaining_time := r,
               countdown_label :=
                 get_text "countdown_label_prefix" ++ ": " ++
                   pad2 (r.fdiv 60) ++ ":" ++ pad2 (r.fmod 60) }
    else
      { s with is_running := false,
               notifications := s.notifications ++
                 [⟨get_text "app_name", get_text "drink_water", true⟩] }
  else s

/-- `ReminderApp.schedule_update` (lines 590-596): return if not running,
otherwise run `update_countdown` and then (unconditionally) schedule the
next firing with `after`.  One scheduled firing of the tick callback is one
application of this function. -/
def schedule_update (s : AppState) : AppState :=
  if s.is_running then
    { update_countdown s with after_id := some () }
  else s

/-- `ReminderApp.start_reminder` (lines 564-573): reject on validation
failure (the failed `validate_inputs` call has already surfaced the
error); otherwise set the running flag, switch the button to Stop, disable
the inputs, set `remaining_time = int(interval) * 60`, and call
`schedule_update` (which runs the first tick at once).  The `none` branch
of the inner match is unreachable: validation just parsed the interval. -/
def start_reminder (s : AppState) (now : Nat) : AppState :=
  match validate_inputs s.interval_var s.start_time_var s.end_time_var now with
  | .error e => surfaceError s e
  | .ok _ =>
    match pyInt s.interval_var with
    | none => s
    | some n =>
      schedule_update
        { s with is_running := true,
                 start_button_text := get_text "stop_button",
                 input_state := InputState.disabled,
                 remaining_time := n * 60 }

/-- `ReminderApp.toggle_reminder` (lines 557-562). -/
def toggle_reminder (s : AppState) (now : Nat) : AppState :=
  if s.is_running then stop_reminder s else start_reminder s now

/-- `ReminderApp.on_notification_closed` (lines 430-437): set the running
flag, set `remaining_time = int(self.interval_var.get()) * 60` (note:
before any validation), then re-run `validate_inputs`; on failure surface
the error and `stop_reminder`, on success `schedule_update`.  When
`int()` raises (interval text not a number) the callback dies with the
running flag already set and `remaining_time` unchanged (`none` branch). -/
def on_notification_closed (s : AppState) (now : Nat) : AppState :=
  let s0 := { s with is_running := true }
  match pyInt s0.interval_var with
  | none => s0
  | some n =>
    let s1 := { s0 with remaining_time := n * 60 }
    match validate_inputs s1.interval_var s1.start_time_var s1.end_time_var now with
    | .error e => stop_reminder (surfaceError s1 e)
    | .ok _ => schedule_update s1

/-- `NotificationWindow.close` applied to the oldest open notification:
destroy the window, then invoke the close callback when there is one. -/
def acknowledge_first (s : AppState) (now : Nat) : AppState :=
  match s.notifications with
  | [] => s
  | nf :: rest =>
    let s1 := { s with notifications := rest }
    if nf.on_close then on_notification_closed s1 now else s1

/-- Errors raised by the modelled Tk/pystray calls. -/
inductive PyError where
  | attributeError
deriving DecidableEq

/-- `ReminderApp.minimize_to_tray` (lines 439-444): when the window is not
hidden, withdraw it, set the hidden flag, and refresh the tray menu.  The
menu assignment dereferences `self.tray_icon` and raises `AttributeError`
when tray creation failed (`tray_icon is None`) — after the window has
already been hidden. -/
def minimize_to_tray (s : AppState) : AppState × Option PyError :=
  if s.window_hidden then (s, none)
  else
    let s1 := { s with window_hidden := true }
    match s1.tray_icon with
    | none => (s1, some PyError.attributeError)
    | some _ => (s1, none)

/-- `ReminderApp.restore_window` (lines 453-458): when the window is
hidden, deiconify it, clear the hidden flag, and refresh the tray menu
(again raising `AttributeError` when there is no tray icon). -/
def restore_window (s : AppState) : AppState × Option PyError :=
  if s.window_hidden then
    let s1 := { s with window_hidden := false }
    match s1.tray_icon with
    | none => (s1, some PyError.attributeError)
    | some _ => (s1, none)
  else (s, none)

/-- `ReminderApp.create_tray_icon` (lines 404-421): on success install the
pystray icon; on any exception report it, clear the hidden flag and
deiconify the main window (the graceful-degradation fallback), leaving
`tray_icon` as `None`. -/
def create_tray_icon (s : AppState) (trayOk : Bool) : AppState :=
  if trayOk then { s with tray_icon := some () }
  else { s with window_hidden := false }

/-- The state built by `ReminderApp.__init__` before `create_tray_icon`,
with the default configuration (no settings file): not running, remaining
time 0, window shown, no pending callback, no tray icon, default inputs,
inputs editable, Start button, default label, no notifications. -/
def base_state : AppState :=
  { is_running := false,
    remaining_time := 0,
    window_hidden := false,
    after_id := none,
    tray_icon := none,
    interval_var := "10",
    start_time_var := "09:00",
    end_time_var := "17:30",
    input_state := InputState.normal,
    start_button_text := get_text "start_button",
    countdown_label := get_text "countdown_label",
    notifications := [] }

/-- The state after `__init__` completes (`_initialize_ui` ends with
`create_tray_icon`); `trayOk` records whether pystray icon creation
succeeded. -/
def initState (trayOk : Bool) : AppState := create_tray_icon base_state trayOk

/-- `n` successive firings of the scheduled tick callback. -/
def ticks : Nat → AppState → AppState
  | 0, s => s
  | n + 1, s => ticks n (schedule_update s)

namespace Asd

/-- Python string `<` (lexicographic by code point, a proper prefix is
smaller), on character lists. -/
def strLtChars : List Char → List Char → Bool
  | [], [] => false
  | [], _ :: _ => true
  | _ :: _, [] => false
  | a :: as, b :: bs =>
    if a.toNat < b.toNat then true
    else if a.toNat = b.toNat then strLtChars as bs
    else false

/-- Python string `<=`. -/
def pyStrLe (a b : String) : Bool := strLtChars a.data b.data || a == b

/-- `strftime("%H:%M")`: zero-padded rendering of a time of day. -/
def hhmm (t : TimeOfDay) : String :=
  pad2 (Int.ofNat t.hour) ++ ":" ++ pad2 (Int.ofNat t.minute)

/-- The window check of `asd.py` `remind_user` (lines 97-105):
`start_time <= current_time <= end_time` compared as `"HH:MM"` strings,
with `now` truncated to the minute.  A closed interval: the end instant is
inside. -/
def timeInRange (startT endT nowT : TimeOfDay) : Bool :=
  pyStrLe (hhmm startT) (hhmm nowT) && pyStrLe (hhmm nowT) (hhmm endT)

end Asd

end Reminder

namespace Reminder

/-- Validation that gets past the interval checks parsed a positive
interval. -/
theorem validate_ok_interval {iv st et : String} {now : Nat} {u : Unit}
    (h : validate_inputs iv st et now = Except.ok u) :
    ∃ n, pyInt iv = some n ∧ 0 < n := by
  unfold validate_inputs at h
  split at h
  · simp at h
  · split at h
    · simp at h
    · rename_i n hn
      split at h
      · simp at h
      · rename_i hpos
        exact ⟨n, hn, by omega⟩

/-- An `outside_range` verdict also means the interval checks passed. -/
theorem validate_outside_interval {iv st et : String} {now : Nat}
    (h : validate_inputs iv st et now = Except.error ValidationError.outside_range) :
    ∃ n, pyInt iv = some n ∧ 0 < n := by
  unfold validate_inputs at h
  split at h
  · simp at h
  · split at h
    · simp at h
    · rename_i n hn
      split at h
      · simp at h
      · rename_i hpos
        exact ⟨n, hn, by omega⟩

end Reminder

namespace Reminder

/-- C5: when validation fails (empty interval text, clock outside the
window, or any other validation error), `start_reminder` performs no
transition: the running flag, remaining time, input state, pending
callback and button text are all unchanged (so a machine in Idle stays in
Idle with its inputs editable), and the only effect is the surfaced error
notification. -/
theorem C5_invalid_start_no_transition :
    ∀ (s : AppState) (now : Nat) (e : ValidationError),
      validate_inputs s.interval_var s.start_time_var s.end_time_var now =
        Except.error e →
      (start_reminder s now).is_running = s.is_running ∧
      (start_reminder s now).remaining_time = s.remaining_time ∧
      (start_reminder s now).input_state = s.input_state ∧
      (start_reminder s now).after_id = s.after_id ∧
      (start_reminder s now).start_button_text = s.start_button_text ∧
      (start_reminder s now).notifications =
        s.notifications ++ [⟨get_text "invalid_input", get_text e.key, false⟩] := by
  intro s now e h
  simp [start_reminder, h, surfaceError]

/-- The freshly initialised state with the interval entry cleared. -/
def emptyIntervalState : AppState := { initState true with interval_var := "" }

/-- C5 witness: starting with an empty interval entry at 10:00 fails with
the `interval_empty` error and leaves the freshly initialised (Idle,
inputs-editable) state untouched apart from the error popup. -/
theorem C5_invalid_start_no_transition_witness :
    (validate_inputs emptyIntervalState.interval_var emptyIntervalState.start_time_var
        emptyIntervalState.end_time_var 36000 =
      Except.error ValidationError.interval_empty) ∧
    ((start_reminder emptyIntervalState 36000).is_running = emptyIntervalState.is_running ∧
      (start_reminder emptyIntervalState 36000).remaining_time = emptyIntervalState.remaining_time ∧
      (start_reminder emptyIntervalState 36000).input_state = emptyIntervalState.input_state ∧
      (start_reminder emptyIntervalState 36000).after_id = emptyIntervalState.after_id ∧
      (start_reminder emptyIntervalState 36000).start_button_text = emptyIntervalState.start_button_text ∧
      (start_reminder emptyIntervalState 36000).notifications =
        emptyIntervalState.notifications ++
          [⟨get_text "invalid_input", get_text ValidationError.interval_empty.key, false⟩]) :=
  ⟨by decide,
   C5_invalid_start_no_transition emptyIntervalState 36000 ValidationError.interval_empty
     (by decide)⟩

end Reminder

namespace Reminder

/-- C6: from every state (in particular Armed, Notifying, Suspended),
`stop_reminder` clears the running flag, re-enables the inputs, restores
the Start button text, resets the remaining-time display, cancels the
pending scheduled tick, and does not mutate `remaining_time`; afterwards a
stale firing of the tick callback (`schedule_update`) or of
`update_countdown` is a no-op. -/
theorem C6_stop_returns_to_idle :
    ∀ s : AppState,
      (stop_reminder s).is_running = false ∧
      (stop_reminder s).input_state = InputState.normal ∧
      (stop_reminder s).start_button_text = get_text "start_button" ∧
      (stop_reminder s).countdown_label = get_text "countdown_label" ∧
      (stop_reminder s).after_id = none ∧
      (stop_reminder s).remaining_time = s.remaining_time ∧
      schedule_update (stop_reminder s) = stop_reminder s ∧
      update_countdown (stop_reminder s) = stop_reminder s := by
  intro s
  refine ⟨rfl, rfl, rfl, rfl, rfl, rfl, ?_, ?_⟩
  · simp [schedule_update, stop_reminder]
  · simp [update_countdown, stop_reminder]

/-- C8: `minimize_to_tray` and `restore_window` are idempotent on the
visibility state: a call in the already-minimized (resp. already-restored)
state is a complete no-op, and after any first call the second call of the
same operation leaves the state unchanged and raises nothing. -/
theorem C8_visibility_idempotent :
    ∀ s : AppState,
      (s.window_hidden = true → minimize_to_tray s = (s, none)) ∧
      (s.window_hidden = false → restore_window s = (s, none)) ∧
      minimize_to_tray (minimize_to_tray s).1 = ((minimize_to_tray s).1, none) ∧
      restore_window (restore_window s).1 = ((restore_window s).1, none) := by
  intro s
  refine ⟨?_, ?_, ?_, ?_⟩
  · intro h
    simp [minimize_to_tray, h]
  · intro h
    simp [restore_window, h]
  · by_cases h : s.window_hidden
    · simp [minimize_to_tray, h]
    · cases ht : s.tray_icon with
      | none => simp [minimize_to_tray, h, ht]
      | some u => simp [minimize_to_tray, h, ht]
  · by_cases h : s.window_hidden
    · cases ht : s.tray_icon with
      | none => simp [restore_window, h, ht]
      | some u => simp [restore_window, h, ht]
    · simp [restore_window, h]

/-- The initial state manually minimized (for the C8 witness). -/
def hiddenInit : AppState := { initState true with window_hidden := true }

/-- C8 witness: at the initial state (shown, tray present) `restore_window`
is a no-op, and at the same state with the window hidden
`minimize_to_tray` is a no-op. -/
theorem C8_visibility_idempotent_witness :
    (hiddenInit.window_hidden = true ∧ minimize_to_tray hiddenInit = (hiddenInit, none)) ∧
    ((initState true).window_hidden = false ∧
      restore_window (initState true) = (initState true, none)) :=
  ⟨⟨by decide, (C8_visibility_idempotent hiddenInit).1 (by decide)⟩,
   ⟨by decide, (C8_visibility_idempotent (initState true)).2.1 (by decide)⟩⟩

end Reminder

namespace Reminder

/-- C4 counterexample: for the validated window 09:00-17:30, the window
check of the `asd.py` variant (`remind_user`, line 105: comparison of
zero-padded HH:MM strings with `<=` on both sides) is TRUE at exactly the
end instant 17:30, contradicting the claim that `contains` is false at
exactly the end instant (half-open, end excluded). -/
theorem C4_counterexample :
    (⟨9, 0⟩ : TimeOfDay).toMinutes < (⟨17, 30⟩ : TimeOfDay).toMinutes ∧
    Asd.timeInRange ⟨9, 0⟩ ⟨17, 30⟩ ⟨17, 30⟩ = true := by
  decide

/-- C4 amended: the canonical window check (`Reminder.py` line 531) is
half-open as claimed: `windowContains` holds iff
`start <= timeOfDay(T) < end`, it holds at exactly the start instant of a
validated (start < end) window, and fails at exactly the end instant.
(The `asd.py` variant instead uses a closed interval at minute
granularity and is true at the end instant.) -/
theorem C4_half_open_canonical :
    (∀ (startT endT : TimeOfDay) (now : Nat),
      windowContains startT endT now = true ↔
        startT.toMinutes * 60 ≤ now ∧ now < endT.toMinutes * 60) ∧
    (∀ startT endT : TimeOfDay, startT.toMinutes < endT.toMinutes →
      windowContains startT endT (startT.toMinutes * 60) = true) ∧
    (∀ startT endT : TimeOfDay,
      windowContains startT endT (endT.toMinutes * 60) = false) := by
  refine ⟨?_, ?_, ?_⟩
  · intro startT endT now
    simp [windowContains]
  · intro startT endT h
    simp [windowContains]
    omega
  · intro startT endT
    simp [windowContains]

/-- C4 witness: the half-open boundary facts applied to the default
window 09:00-17:30. -/
theorem C4_half_open_canonical_witness :
    ((⟨9, 0⟩ : TimeOfDay).toMinutes < (⟨17, 30⟩ : TimeOfDay).toMinutes) ∧
    windowContains ⟨9, 0⟩ ⟨17, 30⟩ ((⟨9, 0⟩ : TimeOfDay).toMinutes * 60) = true :=
  ⟨by decide, C4_half_open_canonical.2.1 ⟨9, 0⟩ ⟨17, 30⟩ (by decide)⟩

/-- C9: the graceful-degradation claim fails.  When tray creation fails,
the fallback does keep the window foregrounded, but the very next
`minimize_to_tray` (bound to the window close button) first withdraws the
window and only then dereferences the missing tray icon, raising
`AttributeError` and leaving the application hidden with no tray presence
to restore it — a crash and an unreachable application.  The source
guards `self.tray_icon` against `None` at its three other use sites, so
the missing guard here is a slip, not a design choice. -/
theorem C9_tray_failure_leaves_app_unreachable :
    (initState false).tray_icon = none ∧
    (initState false).window_hidden = false ∧
    (minimize_to_tray (initState false)).2 = some PyError.attributeError ∧
    (minimize_to_tray (initState false)).1.window_hidden = true ∧
    (minimize_to_tray (initState false)).1.tray_icon = none := by
  decide

end Reminder

namespace Reminder

/-- C1 counterexample: start the default configuration (window
09:00-17:30, interval 10 minutes) at 10:00, then let a scheduled tick fire
while the wall clock reads 18:00 — outside the window.  The claim requires
the machine to leave Armed, open an "outside range" notification and stop
ticking; instead the tick decrements the countdown, stays running, opens
nothing and reschedules itself.  (`schedule_update`/`update_countdown`
take no clock at all, because the source functions read none.) -/
theorem C1_counterexample :
    (start_reminder (initState true) 36000).is_running = true ∧
    (schedule_update (start_reminder (initState true) 36000)).is_running = true ∧
    (schedule_update (start_reminder (initState true) 36000)).notifications = [] ∧
    (schedule_update (start_reminder (initState true) 36000)).remaining_time = 598 ∧
    (schedule_update (start_reminder (initState true) 36000)).after_id = some () := by
  decide

/-- C1 amended: ticks never re-check the schedule window — while running
with positive remaining time a tick decrements the countdown and keeps the
machine running whatever the clock reads.  The window is re-checked
against the clock only by `start_reminder` and by the acknowledgement
handler `on_notification_closed`: when the clock is then outside the
window, the machine (re)validation fails with `outside_range`, the error
is surfaced, and the machine ends stopped (Idle: not running, inputs
editable, no tick pending) instead of resuming. -/
theorem C1_window_not_rechecked_on_tick :
    (∀ s : AppState, s.is_running = true → 0 < s.remaining_time →
      (update_countdown s).is_running = true ∧
      (update_countdown s).notifications = s.notifications ∧
      (update_countdown s).remaining_time = s.remaining_time - 1) ∧
    (∀ (s : AppState) (now : Nat),
      validate_inputs s.interval_var s.start_time_var s.end_time_var now =
        Except.error ValidationError.outside_range →
      (on_notification_closed s now).is_running = false ∧
      (on_notification_closed s now).input_state = InputState.normal ∧
      (on_notification_closed s now).after_id = none ∧
      ⟨get_text "invalid_input", get_text "outside_range", false⟩ ∈
        (on_notification_closed s now).notifications) ∧
    (∀ (s : AppState) (now : Nat),
      validate_inputs s.interval_var s.start_time_var s.end_time_var now =
        Except.error ValidationError.outside_range →
      start_reminder s now = surfaceError s ValidationError.outside_range) := by
  refine ⟨?_, ?_, ?_⟩
  · intro s h1 h2
    simp [update_countdown, h1, h2]
  · intro s now h
    obtain ⟨n, hn, hpos⟩ := validate_outside_interval h
    simp only [on_notification_closed, hn]
    simp only [h]
    simp [stop_reminder, surfaceError, ValidationError.key]
  · intro s now h
    simp [start_reminder, h]

/-- C1 witness: the amended facts applied to the default configuration; a
tick on the armed state, and an acknowledgement and a start attempt at
18:00 (outside the 09:00-17:30 window). -/
theorem C1_window_not_rechecked_on_tick_witness :
    ((start_reminder (initState true) 36000).is_running = true ∧
      0 < (start_reminder (initState true) 36000).remaining_time ∧
      (update_countdown (start_reminder (initState true) 36000)).is_running = true) ∧
    (validate_inputs (initState true).interval_var (initState true).start_time_var
        (initState true).end_time_var 64800 =
      Except.error ValidationError.outside_range ∧
      (on_notification_closed (initState true) 64800).is_running = false) ∧
    start_reminder (initState true) 64800 =
      surfaceError (initState true) ValidationError.outside_range :=
  ⟨⟨by decide, by decide,
    (C1_window_not_rechecked_on_tick.1 (start_reminder (initState true) 36000)
      (by decide) (by decide)).1⟩,
   ⟨by decide,
    (C1_window_not_rechecked_on_tick.2.1 (initState true) 64800 (by decide)).1⟩,
   C1_window_not_rechecked_on_tick.2.2 (initState true) 64800 (by decide)⟩

end Reminder

namespace Reminder

set_option maxRecDepth 40000

/-- The C2 scenario state: interval 1 minute, window 00:00-23:59. -/
def scenC2 : AppState :=
  { initState true with interval_var := "1",
                        start_time_var := "00:00",
                        end_time_var := "23:59" }

/-- C2 counterexample, in the claimed scenario (interval 1 minute, window
00:00-23:59, started at 10:00).  `start_reminder` leaves `remaining_time`
at 59, not 60 (it runs the first tick immediately); the tick that takes
the countdown from 1 to 0 (the 59th scheduled tick) does NOT yield
Expired — the machine is still running with no notification — and the 60th
tick yields Expired without decrementing.  This refutes "each tick
decrements remainingSeconds by exactly 1 ... and yields Expired exactly
when it reaches 0". -/
theorem C2_counterexample :
    (start_reminder scenC2 36000).remaining_time = 59 ∧
    (ticks 58 (start_reminder scenC2 36000)).remaining_time = 1 ∧
    (ticks 59 (start_reminder scenC2 36000)).remaining_time = 0 ∧
    (ticks 59 (start_reminder scenC2 36000)).is_running = true ∧
    (ticks 59 (start_reminder scenC2 36000)).notifications = [] ∧
    (ticks 60 (start_reminder scenC2 36000)).remaining_time = 0 ∧
    (ticks 60 (start_reminder scenC2 36000)).is_running = false := by
  decide

/-- C2 amended: in the claimed scenario `start_reminder` arms the
countdown to 60 seconds and immediately runs the first tick, leaving 59;
after exactly 60 further scheduled ticks the machine is Notifying (not
running, drink-water prompt open) with `remaining_time = 0`.  In general a
tick on a running state decrements a positive remaining time by exactly
one, leaves a non-positive remaining time unchanged while raising the
Expired transition (running flag cleared, prompt opened), and never takes
a nonnegative remaining time below zero. -/
theorem C2_scenario_sixty_ticks :
    (start_reminder scenC2 36000).is_running = true ∧
    (start_reminder scenC2 36000).remaining_time = 59 ∧
    (ticks 60 (start_reminder scenC2 36000)).is_running = false ∧
    (ticks 60 (start_reminder scenC2 36000)).remaining_time = 0 ∧
    (ticks 60 (start_reminder scenC2 36000)).notifications =
      [⟨get_text "app_name", get_text "drink_water", true⟩] ∧
    (∀ s : AppState, s.is_running = true → 0 < s.remaining_time →
      (update_countdown s).remaining_time = s.remaining_time - 1) ∧
    (∀ s : AppState, s.is_running = true → s.remaining_time ≤ 0 →
      (update_countdown s).remaining_time = s.remaining_time ∧
      (update_countdown s).is_running = false ∧
      (update_countdown s).notifications =
        s.notifications ++ [⟨get_text "app_name", get_text "drink_water", true⟩]) ∧
    (∀ s : AppState, 0 ≤ s.remaining_time → 0 ≤ (update_countdown s).remaining_time) := by
  refine ⟨by decide, by decide, by decide, by decide, by decide, ?_, ?_, ?_⟩
  · intro s h1 h2
    simp [update_countdown, h1, h2]
  · intro s h1 h2
    have h3 : ¬ 0 < s.remaining_time := by omega
    simp [update_countdown, h1, h3]
  · intro s h
    by_cases h1 : s.is_running = true
    · by_cases h2 : 0 < s.remaining_time
      · simp [update_countdown, h1, h2]
        omega
      · simp [update_countdown, h1, h2]
        omega
    · simp [update_countdown, h1]
      omega

/-- C2 witness: the generic tick facts applied to concrete states of the
scenario run — the armed state with 59 seconds left, and the expired state
(remaining 0, still running) after 59 scheduled ticks. -/
theorem C2_scenario_sixty_ticks_witness :
    ((start_reminder scenC2 36000).is_running = true ∧
      0 < (start_reminder scenC2 36000).remaining_time ∧
      (update_countdown (start_reminder scenC2 36000)).remaining_time =
        (start_reminder scenC2 36000).remaining_time - 1) ∧
    ((ticks 59 (start_reminder scenC2 36000)).is_running = true ∧
      (ticks 59 (start_reminder scenC2 36000)).remaining_time ≤ 0 ∧
      (update_countdown (ticks 59 (start_reminder scenC2 36000))).is_running = false) ∧
    (0 ≤ scenC2.remaining_time ∧ 0 ≤ (update_countdown scenC2).remaining_time) :=
  ⟨⟨by decide, by decide,
    (C2_scenario_sixty_ticks.2.2.2.2.2.1 (start_reminder scenC2 36000)
      (by decide) (by decide))⟩,
   ⟨by decide, by decide,
    (C2_scenario_sixty_ticks.2.2.2.2.2.2.1 (ticks 59 (start_reminder scenC2 36000))
      (by decide) (by decide)).2.1⟩,
   ⟨by decide, C2_scenario_sixty_ticks.2.2.2.2.2.2.2 scenC2 (by decide)⟩⟩

end Reminder

namespace Reminder

set_option maxRecDepth 40000

/-- The default configuration with a 1-minute interval, started at 10:00
and run to expiry: a reachable Notifying state (not running, drink-water
prompt open with the `on_notification_closed` callback). -/
def notifyingState : AppState :=
  ticks 60 (start_reminder { initState true with interval_var := "1" } 36000)

/-- C3 counterexample: acknowledging the drink-water prompt of the
reachable Notifying state at 18:00 (clock outside the 09:00-17:30 window)
does NOT return the machine to Armed: revalidation fails, and the machine
ends not running, with the inputs re-enabled and no tick scheduled —
i.e. Idle, refuting "for every acknowledgement ... transitions to
Armed". -/
theorem C3_counterexample :
    notifyingState.notifications =
      [⟨get_text "app_name", get_text "drink_water", true⟩] ∧
    notifyingState.is_running = false ∧
    (acknowledge_first notifyingState 64800).is_running = false ∧
    (acknowledge_first notifyingState 64800).input_state = InputState.normal ∧
    (acknowledge_first notifyingState 64800).after_id = none := by
  decide

/-- C3 amended: an acknowledgement while Notifying rearms and resumes only
when the re-run validation succeeds: then the machine returns to Armed
(running flag set, inputs untouched), the countdown is rearmed to the full
interval and ticking resumes — the first resumed tick runs inside the
handler, leaving `interval * 60 - 1` seconds with the next tick scheduled.
When the re-run validation fails (and the interval text still parses), the
machine instead stops: not running, inputs re-enabled, no tick pending. -/
theorem C3_ack_rearms_only_when_valid :
    (∀ (s : AppState) (now : Nat),
      validate_inputs s.interval_var s.start_time_var s.end_time_var now =
        Except.ok () →
      ∃ n, pyInt s.interval_var = some n ∧ 0 < n ∧
        (on_notification_closed s now).is_running = true ∧
        (on_notification_closed s now).remaining_time = n * 60 - 1 ∧
        (on_notification_closed s now).after_id = some () ∧
        (on_notification_closed s now).input_state = s.input_state) ∧
    (∀ (s : AppState) (now : Nat) (n : Int) (e : ValidationError),
      pyInt s.interval_var = some n →
      validate_inputs s.interval_var s.start_time_var s.end_time_var now =
        Except.error e →
      (on_notification_closed s now).is_running = false ∧
      (on_notification_closed s now).input_state = InputState.normal ∧
      (on_notification_closed s now).after_id = none) := by
  constructor
  · intro s now h
    obtain ⟨n, hn, hpos⟩ := validate_ok_interval h
    refine ⟨n, hn, hpos, ?_⟩
    simp only [on_notification_closed, hn]
    simp only [h]
    have hgt : (0 : Int) < n * 60 := by omega
    simp [schedule_update, update_countdown, hgt]
  · intro s now n e hn h
    simp only [on_notification_closed, hn]
    simp only [h]
    simp [stop_reminder]

/-- C3 witness: acknowledging the reachable Notifying state at 10:00
(inside the window) rearms to 60 and resumes with 59 seconds left; the
same acknowledgement at 18:00 stops the machine. -/
theorem C3_ack_rearms_only_when_valid_witness :
    (validate_inputs notifyingState.interval_var notifyingState.start_time_var
        notifyingState.end_time_var 36000 = Except.ok () ∧
      ∃ n, pyInt notifyingState.interval_var = some n ∧ 0 < n ∧
        (on_notification_closed notifyingState 36000).is_running = true ∧
        (on_notification_closed notifyingState 36000).remaining_time = n * 60 - 1 ∧
        (on_notification_closed notifyingState 36000).after_id = some () ∧
        (on_notification_closed notifyingState 36000).input_state =
          notifyingState.input_state) ∧
    (pyInt notifyingState.interval_var = some 1 ∧
      validate_inputs notifyingState.interval_var notifyingState.start_time_var
        notifyingState.end_time_var 64800 =
          Except.error ValidationError.outside_range ∧
      (on_notification_closed notifyingState 64800).is_running = false) :=
  ⟨⟨by decide, C3_ack_rearms_only_when_valid.1 notifyingState 36000 (by decide)⟩,
   ⟨by decide, by decide,
    (C3_ack_rearms_only_when_valid.2 notifyingState 64800 1
      ValidationError.outside_range (by decide) (by decide)).1⟩⟩

end Reminder

namespace Reminder

set_option maxRecDepth 40000

/-- A reachable state with the drink-water prompt still open, the machine
stopped and the inputs editable: start with interval 1 at 10:00, let the
countdown expire (the prompt opens, ticking stops), press the main button
(the machine restarts, since the running flag is already clear), press it
again (stop: inputs re-enabled) — the stale prompt stays open throughout,
as `stop_reminder` never closes it. -/
def stoppedWithPrompt : AppState :=
  toggle_reminder
    (toggle_reminder
      (ticks 60 (toggle_reminder { initState true with interval_var := "1" } 36000))
      36000)
    36000

/-- C7: evaluation of the code at the failing interleaving.  From
`stoppedWithPrompt` (prompt open, inputs editable) the user edits the
interval entry to "-5" and then acknowledges the stale prompt:
`on_notification_closed` sets `remaining_time = int("-5") * 60 = -300`
BEFORE validating, so `remaining_time` becomes negative — the claim says
it is never negative.  The validation on the next source line rejects
"-5", so arming from the unvalidated text first is a slip. -/
theorem C7_negative_remaining_time :
    stoppedWithPrompt.notifications =
      [⟨get_text "app_name", get_text "drink_water", true⟩] ∧
    stoppedWithPrompt.input_state = InputState.normal ∧
    stoppedWithPrompt.is_running = false ∧
    (acknowledge_first { stoppedWithPrompt with interval_var := "-5" } 36000).remaining_time
      = -300 ∧
    (acknowledge_first { stoppedWithPrompt with interval_var := "-5" } 36000).remaining_time
      < 0 := by
  decide

/-- C10 counterexample: in the same stale-prompt situation with the
interval entry edited to the non-numeric "abc", acknowledging the prompt
does not stop the machine to Idle: `int("abc")` raises before
`validate_inputs` is ever reached, the handler dies after setting the
running flag, and the machine ends flagged as running with no tick
scheduled — not Idle, refuting "if that validation fails at
acknowledgement time ... ending in Idle". -/
theorem C10_counterexample :
    stoppedWithPrompt.is_running = false ∧
    (acknowledge_first { stoppedWithPrompt with interval_var := "abc" } 36000).is_running
      = true ∧
    (acknowledge_first { stoppedWithPrompt with interval_var := "abc" } 36000).after_id
      = none ∧
    (acknowledge_first { stoppedWithPrompt with interval_var := "abc" } 36000).notifications
      = [] := by
  decide

/-- C10 amended: when the interval text parses as an integer,
acknowledgement re-runs the full input validation (window check included)
and behaves as claimed — on failure the machine stops to Idle (not
running, inputs unlocked, display reset, no tick pending, error
surfaced), and only on success does it rearm (to `interval * 60`, the
immediately-run first tick leaving one second less) and resume ticking.
When the interval text does not parse, the `ValueError` raised by the
rearm expression aborts the handler before validation, leaving the
running flag set, `remaining_time` and the pending-tick token unchanged. -/
theorem C10_ack_revalidates :
    ∀ (s : AppState) (now : Nat),
      (∀ (n : Int) (e : ValidationError),
        pyInt s.interval_var = some n →
        validate_inputs s.interval_var s.start_time_var s.end_time_var now =
          Except.error e →
        (on_notification_closed s now).is_running = false ∧
        (on_notification_closed s now).input_state = InputState.normal ∧
        (on_notification_closed s now).countdown_label = get_text "countdown_label" ∧
        (on_notification_closed s now).start_button_text = get_text "start_button" ∧
        (on_notification_closed s now).after_id = none ∧
        ⟨get_text "invalid_input", get_text e.key, false⟩ ∈
          (on_notification_closed s now).notifications) ∧
      (validate_inputs s.interval_var s.start_time_var s.end_time_var now =
          Except.ok () →
        ∃ n, pyInt s.interval_var = some n ∧ 0 < n ∧
          (on_notification_closed s now).is_running = true ∧
          (on_notification_closed s now).remaining_time = n * 60 - 1 ∧
          (on_notification_closed s now).after_id = some ()) ∧
      (pyInt s.interval_var = none →
        (on_notification_closed s now).is_running = true ∧
        (on_notification_closed s now).remaining_time = s.remaining_time ∧
        (on_notification_closed s now).after_id = s.after_id ∧
        (on_notification_closed s now).input_state = s.input_state) := by
  intro s now
  refine ⟨?_, ?_, ?_⟩
  · intro n e hn h
    simp only [on_notification_closed, hn]
    simp only [h]
    simp [stop_reminder, surfaceError]
  · intro h
    obtain ⟨n, hn, hpos⟩ := validate_ok_interval h
    refine ⟨n, hn, hpos, ?_⟩
    simp only [on_notification_closed, hn]
    simp only [h]
    have hgt : (0 : Int) < n * 60 := by omega
    simp [schedule_update, update_countdown, hgt]
  · intro hn
    simp [on_notification_closed, hn]

/-- C10 witness: the three branches at concrete inputs — acknowledgement
of the reachable Notifying state at 18:00 (validation fails: stop to
Idle), at 10:00 (validation succeeds: rearm and resume), and with a
non-numeric interval entry (handler dies running). -/
theorem C10_ack_revalidates_witness :
    (pyInt notifyingState.interval_var = some 1 ∧
      validate_inputs notifyingState.interval_var notifyingState.start_time_var
        notifyingState.end_time_var 64800 =
          Except.error ValidationError.outside_range ∧
      (on_notification_closed notifyingState 64800).input_state =
        InputState.normal) ∧
    (validate_inputs notifyingState.interval_var notifyingState.start_time_var
        notifyingState.end_time_var 36000 = Except.ok () ∧
      ∃ n, pyInt notifyingState.interval_var = some n ∧ 0 < n ∧
        (on_notification_closed notifyingState 36000).is_running = true ∧
        (on_notification_closed notifyingState 36000).remaining_time = n * 60 - 1 ∧
        (on_notification_closed notifyingState 36000).after_id = some ()) ∧
    (pyInt (stoppedWithPrompt.interval_var ++ "x") = none ∧
      (on_notification_closed { stoppedWithPrompt with interval_var :=
        stoppedWithPrompt.interval_var ++ "x" } 36000).is_running = true) :=
  ⟨⟨by decide, by decide,
    ((C10_ack_revalidates notifyingState 64800).1 1 ValidationError.outside_range
      (by decide) (by decide)).2.1⟩,
   ⟨by decide, (C10_ack_revalidates notifyingState 36000).2.1 (by decide)⟩,
   ⟨by decide,
    ((C10_ack_revalidates { stoppedWithPrompt with interval_var :=
        stoppedWithPrompt.interval_var ++ "x" } 36000).2.2 (by decide)).1⟩⟩

end Reminder
